import Mathlib

/-
  Verification development for the certgpt repository.

  Shallow embedding of the analysis core:
    - main.py : retry_on_transient_error (transient classification, backoff)
    - src/ai_service.py : AIService (adapter dispatch, buffered and streaming
      adapters for the OpenAI Responses API, the OpenAI Chat Completions API
      and the Gemini API, streaming aggregation, JSON-cleaning fallback and
      exception normalization).

  Conventions used throughout the embedding:
    - Python exceptions are modelled with `Except String`, carrying `str(e)`.
    - A Python value that may be `None` or a missing attribute is `Option`.
    - The streaming callback (sink) is modelled as a list of delivered
      fragments, in delivery order; the boolean `cb` states whether a
      callback is configured (`self.streaming_callback is not None`).
    - Wall-clock fields of the result dict (`timestamp`, `elapsed_seconds`)
      are outside the embedding: they carry no program logic.
-/

-- ===========================================================================
-- Python string primitives used by ai_service.py and main.py
-- ===========================================================================

/-- Whitespace characters stripped by Python `str.strip()`. -/
def pyIsSpace (c : Char) : Bool :=
  c = ' ' || c = '\t' || c = '\n' || c = '\r' || c = '\x0b' || c = '\x0c'

/-- Python `str.strip()`: drop leading and trailing whitespace. -/
def pyStrip (s : String) : String :=
  String.mk (((s.data.dropWhile pyIsSpace).reverse.dropWhile pyIsSpace).reverse)

/-- Python `str.lower()` (the strings this program lowercases are ASCII). -/
def pyLower (s : String) : String :=
  String.mk (s.data.map Char.toLower)

/-- Python `str.startswith(pre)`. -/
def strStartsWith (s pre : String) : Bool :=
  pre.data.isPrefixOf s.data

/-- Python `sub in s` substring containment, on character lists. -/
def containsSub (s sub : List Char) : Bool :=
  match s with
  | [] => sub.isEmpty
  | _ :: t => sub.isPrefixOf s || containsSub t sub

/-- Split `s` at the first occurrence of `sub`: returns the part before the
occurrence and the part after it (the occurrence itself removed). -/
def splitAtSub (s sub : List Char) : Option (List Char × List Char) :=
  match s with
  | [] => if sub.isEmpty then some ([], []) else none
  | c :: t =>
    if sub.isPrefixOf (c :: t) then some ([], (c :: t).drop sub.length)
    else
      match splitAtSub t sub with
      | some (pre, post) => some (c :: pre, post)
      | none => none

def openBrace : Char := '\x7b'

def closeBrace : Char := '\x7d'

def openBraceStr : String := String.mk [openBrace]

def fenceChars : List Char := ['`', '`', '`']

def jsonTagChars : List Char := ['j', 's', 'o', 'n']

/-- Body of the first Markdown code fence of `s`, as found by
`re.search` with pattern <three backticks>(?:json)?\s*([\s\S]*?)\s*<three backticks>
in `_clean_json_response` (the group is stripped by the caller, so the
\s* parts of the pattern are absorbed by the final strip). -/
def fenceBody (s : List Char) : Option (List Char) :=
  match splitAtSub s fenceChars with
  | none => none
  | some (_, rest) =>
    let rest := if jsonTagChars.isPrefixOf rest then rest.drop 4 else rest
    match splitAtSub rest fenceChars with
    | none => none
    | some (body, _) => some body

/-- Span from the first open brace to the last close brace of `s`, as found
by `re.search` with the greedy pattern (open brace [\s\S]* close brace) in
`_clean_json_response`; `none` when the pattern does not match. -/
def braceSpan (s : List Char) : Option (List Char) :=
  let t := s.dropWhile (fun c => c ≠ openBrace)
  if t.isEmpty then none
  else
    let u := (t.reverse.dropWhile (fun c => c ≠ closeBrace)).reverse
    if u.isEmpty then none else some u

/-- AIService._clean_json_response: strip, then extract a Markdown code-fence
body when present, then, if the text still does not start with an open brace,
extract the first-open-brace to last-close-brace span when present. -/
def cleanJsonResponse (text : String) : String :=
  let cleaned := pyStrip text
  let cleaned :=
    match fenceBody cleaned.data with
    | some body => pyStrip (String.mk body)
    | none => cleaned
  if strStartsWith cleaned openBraceStr then cleaned
  else
    match braceSpan cleaned.data with
    | some span => pyStrip (String.mk span)
    | none => cleaned

-- ===========================================================================
-- main.py: retry_on_transient_error
-- ===========================================================================

/-- main.py MAX_RETRIES. -/
def MAX_RETRIES : Nat := 3

/-- main.py RETRY_DELAY (seconds). -/
def RETRY_DELAY : Nat := 2

/-- The fixed keyword list of retry_on_transient_error. -/
def transientKeywords : List String :=
  ["connection", "timeout", "network", "temporary", "unavailable",
   "rate limit", "429", "503", "502", "500", "connection reset",
   "broken pipe", "timed out"]

/-- `any(keyword in error_msg for keyword in transient_keywords)` applied to
`str(e).lower()`. -/
def isTransient (msg : String) : Bool :=
  transientKeywords.any (fun k => containsSub (pyLower msg).data k.data)

/-- Observable behaviour of one retry_on_transient_error call: the attempt
indices at which `func` was invoked, the `time.sleep` durations in order,
and the final outcome (`.ok` = returned value, `.error` = raised message). -/
structure RetryTrace (A : Type) where
  attempts : List Nat
  sleeps : List Nat
  result : Except String A
deriving Repr

/-- Loop of retry_on_transient_error. `behavior i` is the outcome of the
i-th call of `func`; `rem` is the number of loop iterations left
(`MAX_RETRIES - attempt`).  On the last iteration a transient error falls
out of the loop and `raise last_exception` re-raises it, which is
observationally the same as the in-loop `raise` for a non-transient error. -/
def retryGo (behavior : Nat → Except String A) (retryDelay : Nat) :
    Nat → Nat → RetryTrace A
  | 0, _ =>
    -- only reachable with MAX_RETRIES = 0: `raise last_exception` with
    -- last_exception = None
    ⟨[], [], .error "raise None"⟩
  | rem + 1, attempt =>
    match behavior attempt with
    | .ok a => ⟨[attempt], [], .ok a⟩
    | .error e =>
      if isTransient e then
        if rem = 0 then ⟨[attempt], [], .error e⟩
        else
          let t := retryGo behavior retryDelay rem (attempt + 1)
          ⟨attempt :: t.attempts, (retryDelay * 2 ^ attempt) :: t.sleeps, t.result⟩
      else ⟨[attempt], [], .error e⟩

/-- main.py retry_on_transient_error, parameterized by the configured
maximum attempt count and base delay. -/
def retryOnTransientError (behavior : Nat → Except String A)
    (maxRetries retryDelay : Nat) : RetryTrace A :=
  retryGo behavior retryDelay maxRetries 0

-- ===========================================================================
-- src/ai_service.py: data model
-- ===========================================================================

/-- Configuration values read by AIService (src/config.py fields that the
service consults for routing and streaming). -/
structure Config where
  ai_provider : String
  openai_model : String
  gemini_model : String
  streaming_enabled : Bool
  streaming_show_reasoning : Bool
deriving Repr, DecidableEq

/-- The normalized result dict produced by every adapter and by the
orchestrator error paths.  `none` models both a missing key and a key whose
value is Python `None` (the code never distinguishes the two).  The
wall-clock fields `timestamp` and `elapsed_seconds` are omitted. -/
structure AnalysisResult where
  success : Bool
  answer : Option String
  model : Option String
  tokens_used : Option Nat
  error : Option String
deriving Repr, DecidableEq

/-- One streaming-callback invocation: `self.streaming_callback(content,
content_type)`.  `kind` is the content_type tag. -/
structure Fragment where
  content : String
  kind : String
deriving Repr, DecidableEq

/-- Contents of the delivered fragments whose kind is answer, in delivery
order. -/
def answerTexts (frs : List Fragment) : List String :=
  (frs.filter (fun f => f.kind == "answer")).map (fun f => f.content)

/-- Concatenation of all delivered answer-kind fragment contents. -/
def answerFragmentsText (frs : List Fragment) : String :=
  String.join (answerTexts frs)

/-- The error fragment the code sends on its exception paths when a
callback is configured. -/
def errFrag (cb : Bool) (e : String) : List Fragment :=
  if cb then [⟨e, "error"⟩] else []

def usesGemini (cfg : Config) : Bool :=
  cfg.ai_provider == "gemini"

/-- AIService._uses_responses_api. -/
def usesResponsesApi (cfg : Config) : Bool :=
  strStartsWith (pyLower cfg.openai_model) "gpt-5"

-- ===========================================================================
-- Buffered adapters
-- ===========================================================================

/-- One item of `response.output` of the Responses API.  `itemType` is the
`type` attribute (`none` = attribute missing); `content` collapses a missing
or falsy `content` attribute to `[]`. -/
structure OutputItem where
  itemType : Option String
  content : List (Option String)
deriving Repr, DecidableEq

/-- A Responses API response: the `output` list and
`usage.total_tokens` when a `usage` attribute is present. -/
structure RespResponse where
  output : List OutputItem
  usage : Option Nat
deriving Repr, DecidableEq

/-- The `for output_item in response.output` extraction loop shared by
_analyze_with_responses_api and _analyze_multiple_with_responses_api: the
first item of type message with truthy content whose first content element
has a `text` attribute yields that text, stripped. -/
def extractRespAnswer : List OutputItem → Option String
  | [] => none
  | it :: rest =>
    match it.itemType, it.content with
    | some t, c :: _ =>
      if t = "message" then
        match c with
        | some s => some (pyStrip s)
        | none => extractRespAnswer rest
      else extractRespAnswer rest
    | _, _ => extractRespAnswer rest

/-- str(e) of the ValueError raised by _analyze_with_responses_api when no
message content is found (the inner ValueError re-wrapped by the
`except` block). -/
def respExtractErrMsgSingle : String :=
  "Unable to extract answer from API response: Could not find message content in response output"

/-- str(e) of the ValueError raised by _analyze_multiple_with_responses_api
when no message content is found. -/
def respExtractErrMsgMulti : String :=
  "Could not find message content in response output"

/-- AIService._analyze_with_responses_api, from the network call on: the
argument is the outcome of `self.client.responses.create` (`.error` =
transport exception, carrying str(e)). -/
def analyzeWithResponsesApi (cfg : Config) (resp : Except String RespResponse) :
    Except String AnalysisResult :=
  match resp with
  | .error e => .error e
  | .ok r =>
    -- `if hasattr(response, 'output') and response.output:` then the loop
    let answer := if r.output.isEmpty then none else extractRespAnswer r.output
    match answer with
    | some a =>
      -- `if not answer: raise ...` also fires on the empty string
      if a = "" then .error respExtractErrMsgSingle
      else .ok { success := true, answer := some a, model := some cfg.openai_model,
                 tokens_used := r.usage, error := none }
    | none => .error respExtractErrMsgSingle

/-- Multi-image variant of the Responses API extraction
(_analyze_multiple_with_responses_api): same loop, but the ValueError is
raised directly, without the re-wrapping `except` block. -/
def analyzeMultipleWithResponsesApi (cfg : Config)
    (resp : Except String RespResponse) : Except String AnalysisResult :=
  match resp with
  | .error e => .error e
  | .ok r =>
    match extractRespAnswer r.output with
    | some a =>
      if a = "" then .error respExtractErrMsgMulti
      else .ok { success := true, answer := some a, model := some cfg.openai_model,
                 tokens_used := r.usage, error := none }
    | none => .error respExtractErrMsgMulti

/-- A Chat Completions response: `choices[0].message.content` (`none` =
content is None, whose `.strip()` raises) and `usage.total_tokens` when
present. -/
structure ChatResponse where
  content : Option String
  usage : Option Nat
deriving Repr, DecidableEq

/-- str(e) of the AttributeError raised by `.strip()` on a None message
content (apostrophes elided). -/
def noneStripErrMsg : String :=
  "AttributeError: NoneType object has no attribute strip"

/-- AIService._analyze_with_completions_api, from the network call on.
Note: the stripped content is NOT checked for emptiness. -/
def analyzeWithCompletionsApi (cfg : Config) (resp : Except String ChatResponse) :
    Except String AnalysisResult :=
  match resp with
  | .error e => .error e
  | .ok r =>
    match r.content with
    | none => .error noneStripErrMsg
    | some c =>
      .ok { success := true, answer := some (pyStrip c), model := some cfg.openai_model,
            tokens_used := r.usage, error := none }

/-- _analyze_multiple_with_completions_api: same parse as the single-image
Completions adapter (they differ only in the prompt and image list). -/
def analyzeMultipleWithCompletionsApi (cfg : Config)
    (resp : Except String ChatResponse) : Except String AnalysisResult :=
  analyzeWithCompletionsApi cfg resp

/-- A Gemini generate_content response: `response.text` (`none` = attribute
None) and `usage_metadata.total_token_count` when present. -/
structure GemResponse where
  text : Option String
  usage : Option Nat
deriving Repr, DecidableEq

def geminiEmptyMsg : String := "Gemini returned empty response"

/-- AIService._analyze_with_gemini, from the network call on: strip the
response text, fail on emptiness, then apply the JSON-cleaning fallback when
the text does not start with an open brace.  The cleaned text is NOT
re-checked for emptiness. -/
def analyzeWithGemini (cfg : Config) (resp : Except String GemResponse) :
    Except String AnalysisResult :=
  match resp with
  | .error e => .error e
  | .ok r =>
    match r.text with
    | none => .error geminiEmptyMsg
    | some t =>
      if t = "" then .error geminiEmptyMsg
      else
        let answer := pyStrip t
        if answer = "" then .error geminiEmptyMsg
        else
          let answer := if strStartsWith answer openBraceStr then answer
                        else cleanJsonResponse answer
          .ok { success := true, answer := some answer, model := some cfg.gemini_model,
                tokens_used := r.usage, error := none }

/-- _analyze_multiple_with_gemini: same parse as the single-image Gemini
adapter. -/
def analyzeMultipleWithGemini (cfg : Config) (resp : Except String GemResponse) :
    Except String AnalysisResult :=
  analyzeWithGemini cfg resp

-- ===========================================================================
-- Streaming adapters
-- ===========================================================================

/-- An event of the Responses API stream, keyed by `event.type`.  The
`Option String` payloads model `hasattr(event, 'delta')` (`none` = missing);
`responseDone` carries `event.response.usage.total_tokens` when present. -/
inductive RespEvent where
  | reasoningSummaryDelta (delta : Option String)
  | reasoningSummaryDone
  | webSearchSearching
  | webSearchDone
  | outputTextDelta (delta : Option String)
  | outputTextDone
  | responseDone (usage : Option Nat)
  | otherEvent
deriving Repr, DecidableEq

/-- Loop state of _analyze_with_responses_api_streaming, plus the fragments
delivered to the sink so far. -/
structure RespStreamState where
  answerContent : List String
  reasoningContent : List String
  totalTokens : Nat
  sink : List Fragment
deriving Repr, DecidableEq

def initRespStreamState : RespStreamState := ⟨[], [], 0, []⟩

/-- One iteration of the `for event in stream` loop of
_analyze_with_responses_api_streaming. -/
def respStreamStep (cfg : Config) (cb : Bool) (st : RespStreamState)
    (ev : RespEvent) : RespStreamState :=
  match ev with
  | .reasoningSummaryDelta (some chunk) =>
    -- `if chunk and self.config.streaming_show_reasoning:`
    if chunk ≠ "" && cfg.streaming_show_reasoning then
      let st := { st with reasoningContent := st.reasoningContent ++ [chunk] }
      if cb then { st with sink := st.sink ++ [⟨chunk, "reasoning"⟩] } else st
    else st
  | .webSearchSearching =>
    if cb then { st with sink := st.sink ++ [⟨"searching", "searching"⟩] } else st
  | .webSearchDone =>
    if cb then { st with sink := st.sink ++ [⟨"done", "searching"⟩] } else st
  | .outputTextDelta (some chunk) =>
    if chunk ≠ "" then
      let st := { st with answerContent := st.answerContent ++ [chunk] }
      if cb then { st with sink := st.sink ++ [⟨chunk, "answer"⟩] } else st
    else st
  | .responseDone (some u) => { st with totalTokens := u }
  | _ => st

/-- str(e) of the ValueError raised by both OpenAI streaming adapters when
the joined-and-stripped answer buffer is empty. -/
def emptyStreamMsg : String := "Empty response received from streaming API"

/-- AIService._analyze_with_responses_api_streaming, from the stream on.
`events` are the stream events in arrival order; `streamErr = some e` models
a transport exception raised after those events (the `except` block sends an
error fragment and re-raises).  Returns the fragments delivered to the sink
and the outcome. -/
def analyzeWithResponsesApiStreaming (cfg : Config) (cb : Bool)
    (events : List RespEvent) (streamErr : Option String) :
    List Fragment × Except String AnalysisResult :=
  let st := events.foldl (respStreamStep cfg cb) initRespStreamState
  match streamErr with
  | some e => (st.sink ++ errFrag cb e, .error e)
  | none =>
    let finalAnswer := pyStrip (String.join st.answerContent)
    if finalAnswer = "" then
      (st.sink ++ errFrag cb emptyStreamMsg, .error emptyStreamMsg)
    else
      (st.sink, .ok { success := true, answer := some finalAnswer,
                      model := some cfg.openai_model,
                      tokens_used := some st.totalTokens, error := none })

/-- A chunk of the Chat Completions stream: `choices[0].delta.content`
collapsed to `none` when `chunk.choices` is empty or the content is None,
and `usage.total_tokens` when `chunk.usage` is present and truthy. -/
structure ChatChunk where
  deltaContent : Option String
  usage : Option Nat
deriving Repr, DecidableEq

/-- Loop state of _analyze_with_completions_api_streaming. -/
structure ChatStreamState where
  answerChunks : List String
  totalTokens : Nat
  sink : List Fragment
deriving Repr, DecidableEq

def initChatStreamState : ChatStreamState := ⟨[], 0, []⟩

/-- One iteration of the `for chunk in stream` loop of
_analyze_with_completions_api_streaming. -/
def chatStreamStep (cb : Bool) (st : ChatStreamState) (ch : ChatChunk) :
    ChatStreamState :=
  let st :=
    match ch.deltaContent with
    | some c =>
      if c ≠ "" then
        let st := { st with answerChunks := st.answerChunks ++ [c] }
        if cb then { st with sink := st.sink ++ [⟨c, "answer"⟩] } else st
      else st
    | none => st
  match ch.usage with
  | some u => { st with totalTokens := u }
  | none => st

/-- AIService._analyze_with_completions_api_streaming, from the stream on. -/
def analyzeWithCompletionsApiStreaming (cfg : Config) (cb : Bool)
    (chunks : List ChatChunk) (streamErr : Option String) :
    List Fragment × Except String AnalysisResult :=
  let st := chunks.foldl (chatStreamStep cb) initChatStreamState
  match streamErr with
  | some e => (st.sink ++ errFrag cb e, .error e)
  | none =>
    let finalAnswer := pyStrip (String.join st.answerChunks)
    if finalAnswer = "" then
      (st.sink ++ errFrag cb emptyStreamMsg, .error emptyStreamMsg)
    else
      (st.sink, .ok { success := true, answer := some finalAnswer,
                      model := some cfg.openai_model,
                      tokens_used := some st.totalTokens, error := none })

/-- One part of a Gemini stream chunk: the `thought` marker
(`getattr(part, 'thought', False)`) and the `text` attribute. -/
structure GemPart where
  thought : Bool
  text : Option String
deriving Repr, DecidableEq

/-- A Gemini stream chunk: `parts = none` models a chunk without candidates
or without candidate content (skipped whole, `continue`); `usage` is
`usage_metadata.total_token_count` when present. -/
structure GemChunk where
  parts : Option (List GemPart)
  usage : Option Nat
deriving Repr, DecidableEq

/-- Loop state of _analyze_with_gemini_streaming. -/
structure GemStreamState where
  answerChunks : List String
  totalTokens : Nat
  sink : List Fragment
deriving Repr, DecidableEq

def initGemStreamState : GemStreamState := ⟨[], 0, []⟩

/-- Per-part body of the Gemini streaming loop.  Note that the text of a
thought part is appended to `answer_chunks` exactly like answer text; only
the callback tag differs, and the show-reasoning flag is not consulted. -/
def gemPartStep (cb : Bool) (st : GemStreamState) (p : GemPart) :
    GemStreamState :=
  match p.text with
  | some t =>
    if t ≠ "" then
      let st := { st with answerChunks := st.answerChunks ++ [t] }
      if cb then
        { st with sink := st.sink ++ [⟨t, if p.thought then "reasoning" else "answer"⟩] }
      else st
    else st
  | none => st

/-- One iteration of the `for chunk in stream` loop of
_analyze_with_gemini_streaming. -/
def gemChunkStep (cb : Bool) (st : GemStreamState) (ch : GemChunk) :
    GemStreamState :=
  match ch.parts with
  | none => st
  | some ps =>
    let st := ps.foldl (gemPartStep cb) st
    match ch.usage with
    | some u => { st with totalTokens := u }
    | none => st

/-- str(e) of the ValueError raised by both Gemini streaming adapters when
the joined-and-stripped buffer is empty. -/
def gemEmptyStreamMsg : String := "Empty response received from Gemini streaming API"

/-- Shared body of _analyze_with_gemini_streaming and
_analyze_multiple_with_gemini_streaming (identical aggregation logic), from
the stream on. -/
def geminiStreamingCore (cfg : Config) (cb : Bool) (chunks : List GemChunk)
    (streamErr : Option String) : List Fragment × Except String AnalysisResult :=
  let st := chunks.foldl (gemChunkStep cb) initGemStreamState
  match streamErr with
  | some e => (st.sink ++ errFrag cb e, .error e)
  | none =>
    let finalAnswer := pyStrip (String.join st.answerChunks)
    if finalAnswer = "" then
      (st.sink ++ errFrag cb gemEmptyStreamMsg, .error gemEmptyStreamMsg)
    else
      let finalAnswer := if strStartsWith finalAnswer openBraceStr then finalAnswer
                         else cleanJsonResponse finalAnswer
      (st.sink, .ok { success := true, answer := some finalAnswer,
                      model := some cfg.gemini_model,
                      tokens_used := some st.totalTokens, error := none })

/-- AIService._analyze_with_gemini_streaming. -/
def analyzeWithGeminiStreaming (cfg : Config) (cb : Bool)
    (chunks : List GemChunk) (streamErr : Option String) :
    List Fragment × Except String AnalysisResult :=
  geminiStreamingCore cfg cb chunks streamErr

/-- AIService._analyze_multiple_with_gemini_streaming. -/
def analyzeMultipleWithGeminiStreaming (cfg : Config) (cb : Bool)
    (chunks : List GemChunk) (streamErr : Option String) :
    List Fragment × Except String AnalysisResult :=
  geminiStreamingCore cfg cb chunks streamErr

-- ===========================================================================
-- Orchestrator: routing, dispatch and exception normalization
-- ===========================================================================

/-- The concrete adapter variants. -/
inductive Variant where
  | geminiStreaming
  | geminiBuffered
  | responsesStreaming
  | completionsStreaming
  | responsesBuffered
  | completionsBuffered
deriving Repr, DecidableEq

def isStreamingVariant : Variant → Bool
  | .geminiStreaming => true
  | .responsesStreaming => true
  | .completionsStreaming => true
  | _ => false

def isResponsesGeneration : Variant → Bool
  | .responsesStreaming => true
  | .responsesBuffered => true
  | _ => false

def isCompletionsGeneration : Variant → Bool
  | .completionsStreaming => true
  | .completionsBuffered => true
  | _ => false

/-- Routing chain of AIService.analyze_exam_screenshot (lines 87-106):
`use_streaming = streaming_enabled and streaming_callback is not None`,
then provider / API generation / delivery mode. -/
def selectVariant (cfg : Config) (cb : Bool) : Variant :=
  let useStreaming := cfg.streaming_enabled && cb
  if usesGemini cfg then
    if useStreaming then .geminiStreaming else .geminiBuffered
  else if useStreaming && usesResponsesApi cfg then .responsesStreaming
  else if useStreaming && !usesResponsesApi cfg then .completionsStreaming
  else if usesResponsesApi cfg then .responsesBuffered
  else .completionsBuffered

/-- Routing chain of AIService.analyze_multi_screenshots (lines 1016-1024):
`use_streaming` is computed but consulted only on the Gemini branch; the
OpenAI branches pick a buffered variant unconditionally. -/
def selectVariantMulti (cfg : Config) (cb : Bool) : Variant :=
  let useStreaming := cfg.streaming_enabled && cb
  if usesGemini cfg then
    if useStreaming then .geminiStreaming else .geminiBuffered
  else if usesResponsesApi cfg then .responsesBuffered
  else .completionsBuffered

/-- The vendor-side behaviour of one analyze call: what each transport
would deliver if invoked.  Buffered calls are an outcome, streaming calls an
event list plus an optional transport exception raised after it. -/
structure ProviderEnv where
  respResponse : Except String RespResponse
  chatResponse : Except String ChatResponse
  gemResponse : Except String GemResponse
  respEvents : List RespEvent
  respStreamErr : Option String
  chatChunks : List ChatChunk
  chatStreamErr : Option String
  gemChunks : List GemChunk
  gemStreamErr : Option String
deriving Repr

/-- Delegation step of analyze_exam_screenshot after routing. -/
def dispatchSingle (cfg : Config) (cb : Bool) (env : ProviderEnv) :
    List Fragment × Except String AnalysisResult :=
  match selectVariant cfg cb with
  | .geminiStreaming => analyzeWithGeminiStreaming cfg cb env.gemChunks env.gemStreamErr
  | .geminiBuffered => ([], analyzeWithGemini cfg env.gemResponse)
  | .responsesStreaming =>
    analyzeWithResponsesApiStreaming cfg cb env.respEvents env.respStreamErr
  | .completionsStreaming =>
    analyzeWithCompletionsApiStreaming cfg cb env.chatChunks env.chatStreamErr
  | .responsesBuffered => ([], analyzeWithResponsesApi cfg env.respResponse)
  | .completionsBuffered => ([], analyzeWithCompletionsApi cfg env.chatResponse)

/-- The failure dict built by the `except` blocks of both analyze entry
points: success False, answer None, the configured model of the selected
provider, and error = str(e). -/
def failureResult (cfg : Config) (e : String) : AnalysisResult :=
  { success := false, answer := none,
    model := some (if usesGemini cfg then cfg.gemini_model else cfg.openai_model),
    tokens_used := none, error := some e }

/-- AIService.analyze_exam_screenshot: route, delegate, and normalize any
raised exception into a failure dict, additionally sending the message to
the sink as an error fragment when a callback is configured. -/
def analyzeExamScreenshot (cfg : Config) (cb : Bool) (env : ProviderEnv) :
    List Fragment × AnalysisResult :=
  match dispatchSingle cfg cb env with
  | (frs, .ok r) => (frs, r)
  | (frs, .error e) => (frs ++ errFrag cb e, failureResult cfg e)

/-- Delegation of analyze_multi_screenshots after the emptiness check:
the nested conditionals of lines 1016-1024. -/
def dispatchMulti (cfg : Config) (cb : Bool) (env : ProviderEnv) :
    List Fragment × Except String AnalysisResult :=
  let useStreaming := cfg.streaming_enabled && cb
  if usesGemini cfg then
    if useStreaming then
      analyzeMultipleWithGeminiStreaming cfg cb env.gemChunks env.gemStreamErr
    else ([], analyzeMultipleWithGemini cfg env.gemResponse)
  else if usesResponsesApi cfg then
    ([], analyzeMultipleWithResponsesApi cfg env.respResponse)
  else ([], analyzeMultipleWithCompletionsApi cfg env.chatResponse)

/-- The early-return dict of analyze_multi_screenshots for an empty
screenshot list: no model key (`model := none`), unlike every other
failure dict. -/
def noScreenshotsResult : AnalysisResult :=
  { success := false, answer := none, model := none,
    tokens_used := none, error := some "No screenshots provided" }

/-- AIService.analyze_multi_screenshots.  Screenshots are opaque here: the
vendor-side outcome is carried by `env`, so only emptiness of the list
matters to the result.  The multi-image `except` block does not send an
error fragment to the sink. -/
def analyzeMultiScreenshots (cfg : Config) (cb : Bool) (env : ProviderEnv)
    (screenshots : List Unit) : List Fragment × AnalysisResult :=
  match screenshots with
  | [] => ([], noScreenshotsResult)
  | _ :: _ =>
    match dispatchMulti cfg cb env with
    | (frs, .ok r) => (frs, r)
    | (frs, .error e) => (frs, failureResult cfg e)

-- ===========================================================================
-- Accumulation-buffer observers (for stating stream-exhaustion claims)
-- ===========================================================================

/-- The answer accumulation buffer of the Responses streaming adapter after
the stream is exhausted. -/
def respAnswerBuffer (cfg : Config) (cb : Bool) (events : List RespEvent) :
    List String :=
  (events.foldl (respStreamStep cfg cb) initRespStreamState).answerContent

/-- The answer accumulation buffer of the Completions streaming adapter. -/
def chatAnswerBuffer (cb : Bool) (chunks : List ChatChunk) : List String :=
  (chunks.foldl (chatStreamStep cb) initChatStreamState).answerChunks

/-- The accumulation buffer of the Gemini streaming adapters. -/
def gemAnswerBuffer (cb : Bool) (chunks : List GemChunk) : List String :=
  (chunks.foldl (gemChunkStep cb) initGemStreamState).answerChunks

-- ===========================================================================
-- Concrete configurations and vendor behaviours (for witnesses and
-- counterexamples)
-- ===========================================================================

/-- OpenAI legacy model, streaming disabled. -/
def cfgCompletions : Config :=
  { ai_provider := "openai", openai_model := "gpt-4o",
    gemini_model := "gemini-2.5-pro",
    streaming_enabled := false, streaming_show_reasoning := false }

/-- OpenAI legacy model, streaming enabled. -/
def cfgCompletionsStreaming : Config :=
  { cfgCompletions with streaming_enabled := true }

/-- OpenAI GPT-5 family model, streaming disabled. -/
def cfgResponses : Config :=
  { cfgCompletions with openai_model := "gpt-5.2" }

/-- OpenAI GPT-5 family model, streaming enabled, reasoning shown. -/
def cfgResponsesStreaming : Config :=
  { cfgCompletions with
    openai_model := "gpt-5.2",
    streaming_enabled := true,
    streaming_show_reasoning := true }

/-- Gemini provider, streaming enabled, show-reasoning disabled. -/
def cfgGeminiStreaming : Config :=
  { cfgCompletions with
    ai_provider := "gemini",
    streaming_enabled := true,
    streaming_show_reasoning := false }

/-- A vendor environment in which every transport raises. -/
def envAllFail : ProviderEnv :=
  { respResponse := .error "boom", chatResponse := .error "boom",
    gemResponse := .error "boom",
    respEvents := [], respStreamErr := some "boom",
    chatChunks := [], chatStreamErr := some "boom",
    gemChunks := [], gemStreamErr := some "boom" }

/-- Completions response whose message content is pure whitespace. -/
def envChatBlank : ProviderEnv :=
  { envAllFail with chatResponse := .ok { content := some "   ", usage := some 10 } }

/-- Completions response with a normal answer. -/
def envChatOk : ProviderEnv :=
  { envAllFail with chatResponse := .ok { content := some "Answer: B", usage := some 10 } }

/-- Gemini buffered response consisting of an empty Markdown code fence:
six backticks in a row, which the JSON-cleaning fallback reduces to the
empty string. -/
def envGemFence : ProviderEnv :=
  { envAllFail with gemResponse := .ok { text := some "``````", usage := none } }

/-- Responses API buffered response with one message item. -/
def respOkResponse : RespResponse :=
  { output := [{ itemType := some "reasoning", content := [] },
               { itemType := some "message", content := [some "42"] }],
    usage := some 7 }

def envRespOk : ProviderEnv :=
  { envAllFail with respResponse := .ok respOkResponse }

/-- Responses API stream delivering one whitespace-padded answer delta. -/
def envRespPadded : ProviderEnv :=
  { envAllFail with
    respEvents := [.outputTextDelta (some " hi ")],
    respStreamErr := none }

/-- Responses API stream delivering two answer deltas. -/
def c2wEvents : List RespEvent :=
  [.outputTextDelta (some "A"), .outputTextDelta (some "B"),
   .responseDone (some 5)]

/-- Gemini stream delivering a single thought part. -/
def gemThoughtChunks : List GemChunk :=
  [{ parts := some [{ thought := true, text := some "think" }], usage := none }]

/-- Environment for the Gemini thought-part counterexample. -/
def envGemThought : ProviderEnv :=
  { envAllFail with gemChunks := gemThoughtChunks, gemStreamErr := none }

/-- Environment for the empty Gemini stream witness. -/
def envGemEmptyStream : ProviderEnv :=
  { envAllFail with gemChunks := [], gemStreamErr := none }

/-- Every attempt fails with an upper-case timeout message. -/
def behaviorTimeout : Nat → Except String Nat :=
  fun _ => .error "Read TIMEOUT"

/-- The first attempt fails with an invalid-API-key message. -/
def behaviorBadKey : Nat → Except String Nat :=
  fun _ => .error "Invalid API Key"


/-- Gemini provider with streaming disabled (buffered Gemini adapter). -/

def cfgGemini : Config := { cfgCompletions with ai_provider := "gemini" }

/-- Events of the Responses stream that carry reasoning-summary content
(the types handled by the reasoning branches of the streaming loop). -/
def isReasoningEvent : RespEvent → Bool
  | .reasoningSummaryDelta _ => true
  | .reasoningSummaryDone => true
  | _ => false

/-- The non-empty output-text deltas of a Responses event stream, in order:
exactly the content appended to the answer buffer by the streaming loop. -/
def respAnswerDeltas (evs : List RespEvent) : List String :=
  evs.filterMap (fun ev =>
    match ev with
    | .outputTextDelta (some c) => if c ≠ "" then some c else none
    | _ => none)

/-- Token-count bookkeeping of one Responses stream event. -/
def respTokenStep (tk : Nat) (ev : RespEvent) : Nat :=
  match ev with
  | .responseDone (some u) => u
  | _ => tk

-- ===========================================================================
-- Helper lemmas
-- ===========================================================================

theorem containsSub_timeout_transient (msg : String)
    (h : containsSub (pyLower msg).data "timeout".data = true) :
    isTransient msg = true := by
  unfold isTransient transientKeywords
  simp only [List.any_cons, List.any_nil, Bool.or_eq_true]
  exact Or.inr (Or.inl h)

-- ===========================================================================
-- Claims C4 and C5: the retry wrapper
-- ===========================================================================

/-- Claim C4: the retry wrapper classifies an exception whose message
contains "timeout" in any letter case as transient and retries it up to the
maximum attempt count (attempts 0, 1 and 2, finally re-raising the last
message), while an exception whose message contains "invalid api key" and no
transient keyword is re-raised on the first attempt, with no further attempt
and no sleep. -/
theorem claim_C4 :
    (∀ (A : Type) (behavior : Nat → Except String A) (msgs : Nat → String) (d : Nat),
       (∀ i, i < MAX_RETRIES → behavior i = .error (msgs i)) →
       (∀ i, i < MAX_RETRIES → containsSub (pyLower (msgs i)).data "timeout".data = true) →
       (retryOnTransientError behavior MAX_RETRIES d).attempts = [0, 1, 2] ∧
       (retryOnTransientError behavior MAX_RETRIES d).result = .error (msgs 2))
    ∧
    (∀ (A : Type) (behavior : Nat → Except String A) (e : String) (d : Nat),
       behavior 0 = .error e →
       containsSub (pyLower e).data "invalid api key".data = true →
       isTransient e = false →
       retryOnTransientError behavior MAX_RETRIES d = ⟨[0], [], .error e⟩) := by
  constructor
  · intro A behavior msgs d hb ht
    have h0 := hb 0 (by decide)
    have h1 := hb 1 (by decide)
    have h2 := hb 2 (by decide)
    have t0 := containsSub_timeout_transient _ (ht 0 (by decide))
    have t1 := containsSub_timeout_transient _ (ht 1 (by decide))
    have t2 := containsSub_timeout_transient _ (ht 2 (by decide))
    unfold retryOnTransientError MAX_RETRIES
    simp [retryGo, h0, h1, h2, t0, t1, t2]
  · intro A behavior e d hb hc hnt
    unfold retryOnTransientError MAX_RETRIES
    simp [retryGo, hb, hnt]

/-- Witness for C4: a concrete always-timeout call is attempted three times
and its error re-raised; a concrete invalid-key call fails once, with no
sleeps. -/
theorem claim_C4_witness :
    ((retryOnTransientError behaviorTimeout MAX_RETRIES RETRY_DELAY).attempts = [0, 1, 2] ∧
     (retryOnTransientError behaviorTimeout MAX_RETRIES RETRY_DELAY).result = .error "Read TIMEOUT") ∧
    retryOnTransientError behaviorBadKey MAX_RETRIES RETRY_DELAY = ⟨[0], [], .error "Invalid API Key"⟩ :=
  ⟨claim_C4.1 Nat behaviorTimeout (fun _ => "Read TIMEOUT") RETRY_DELAY
     (by intro i _; rfl)
     (by intro i _; show containsSub (pyLower "Read TIMEOUT").data "timeout".data = true; decide),
   claim_C4.2 Nat behaviorBadKey "Invalid API Key" RETRY_DELAY rfl (by decide) (by decide)⟩

/-- Claim C5: with MAX_RETRIES = 3 and base delay d, a call failing
transiently on every attempt sleeps exactly d before the second attempt and
2d before the third, sleeps nowhere else, and re-raises the last transient
exception. -/
theorem claim_C5 :
    ∀ (A : Type) (behavior : Nat → Except String A) (msgs : Nat → String) (d : Nat),
      (∀ i, i < MAX_RETRIES → behavior i = .error (msgs i)) →
      (∀ i, i < MAX_RETRIES → isTransient (msgs i) = true) →
      retryOnTransientError behavior MAX_RETRIES d =
        ⟨[0, 1, 2], [d, 2 * d], .error (msgs 2)⟩ := by
  intro A behavior msgs d hb ht
  have h0 := hb 0 (by decide)
  have h1 := hb 1 (by decide)
  have h2 := hb 2 (by decide)
  have t0 := ht 0 (by decide)
  have t1 := ht 1 (by decide)
  have t2 := ht 2 (by decide)
  unfold retryOnTransientError MAX_RETRIES
  simp [retryGo, h0, h1, h2, t0, t1, t2, Nat.mul_comm]

/-- Witness for C5: the concrete always-timeout call with the configured
base delay sleeps 2 then 4 seconds and re-raises. -/
theorem claim_C5_witness :
    retryOnTransientError behaviorTimeout MAX_RETRIES RETRY_DELAY =
      ⟨[0, 1, 2], [RETRY_DELAY, 2 * RETRY_DELAY], .error "Read TIMEOUT"⟩ :=
  claim_C5 Nat behaviorTimeout (fun _ => "Read TIMEOUT") RETRY_DELAY
    (by intro i _; rfl)
    (by intro i _; show isTransient "Read TIMEOUT" = true; decide)

-- ===========================================================================
-- Claims C7 and C8: adapter-variant selection
-- ===========================================================================

/-- Counterexample to C7 as stated: with the streaming flag on and a sink
callback configured, the multi-image entry point for an OpenAI GPT-5 model
still selects the buffered Responses variant, not a streaming one. -/
theorem claim_C7_counterexample :
    (cfgResponsesStreaming.streaming_enabled && true) = true ∧
    selectVariant cfgResponsesStreaming true = .responsesStreaming ∧
    selectVariantMulti cfgResponsesStreaming true = .responsesBuffered ∧
    isStreamingVariant (selectVariantMulti cfgResponsesStreaming true) = false :=
  ⟨rfl, rfl, rfl, rfl⟩

/-- Claim C7 amended: for single-image calls a streaming variant is selected
iff the streaming flag is on and a sink callback is configured; for
multi-image calls that equivalence holds only under the Gemini provider, and
OpenAI multi-image calls always select a buffered variant. -/
theorem claim_C7_amended :
    ∀ (cfg : Config) (cb : Bool),
      isStreamingVariant (selectVariant cfg cb) = (cfg.streaming_enabled && cb) ∧
      isStreamingVariant (selectVariantMulti cfg cb) =
        (usesGemini cfg && (cfg.streaming_enabled && cb)) := by
  intro cfg cb
  cases hg : usesGemini cfg <;> cases hs : cfg.streaming_enabled <;> cases cb <;>
    cases hr : usesResponsesApi cfg <;>
      simp [selectVariant, selectVariantMulti, isStreamingVariant, hg, hs, hr]

/-- Claim C8: an adapter of the new structured-response generation is
selected exactly when the provider is OpenAI and the lowercased model
identifier starts with the family code "gpt-5"; every other OpenAI model
selects a legacy completion-style adapter.  Holds for both entry points. -/
theorem claim_C8 :
    ∀ (cfg : Config) (cb : Bool),
      isResponsesGeneration (selectVariant cfg cb) =
        (!usesGemini cfg && strStartsWith (pyLower cfg.openai_model) "gpt-5") ∧
      isCompletionsGeneration (selectVariant cfg cb) =
        (!usesGemini cfg && !strStartsWith (pyLower cfg.openai_model) "gpt-5") ∧
      isResponsesGeneration (selectVariantMulti cfg cb) =
        (!usesGemini cfg && strStartsWith (pyLower cfg.openai_model) "gpt-5") ∧
      isCompletionsGeneration (selectVariantMulti cfg cb) =
        (!usesGemini cfg && !strStartsWith (pyLower cfg.openai_model) "gpt-5") := by
  intro cfg cb
  cases hg : usesGemini cfg <;> cases hs : cfg.streaming_enabled <;> cases cb <;>
    cases hr : strStartsWith (pyLower cfg.openai_model) "gpt-5" <;>
      simp [selectVariant, selectVariantMulti, isResponsesGeneration,
            isCompletionsGeneration, usesResponsesApi, hg, hs, hr]
theorem respApi_ok (cfg : Config) (resp : Except String RespResponse) (r : AnalysisResult)
    (h : analyzeWithResponsesApi cfg resp = .ok r) :
    r.success = true ∧ r.error = none ∧ ∃ s, r.answer = some s ∧ s ≠ "" := by
  unfold analyzeWithResponsesApi at h
  cases resp with
  | error e => simp at h
  | ok rr =>
    dsimp only at h
    split at h
    · next a ha =>
      split at h
      · simp at h
      · next hne =>
        simp only [Except.ok.injEq] at h
        subst h
        exact ⟨rfl, rfl, a, rfl, hne⟩
    · simp at h

theorem respApiMulti_ok (cfg : Config) (resp : Except String RespResponse) (r : AnalysisResult)
    (h : analyzeMultipleWithResponsesApi cfg resp = .ok r) :
    r.success = true ∧ r.error = none ∧ ∃ s, r.answer = some s ∧ s ≠ "" := by
  unfold analyzeMultipleWithResponsesApi at h
  cases resp with
  | error e => simp at h
  | ok rr =>
    dsimp only at h
    split at h
    · next a ha =>
      split at h
      · simp at h
      · next hne =>
        simp only [Except.ok.injEq] at h
        subst h
        exact ⟨rfl, rfl, a, rfl, hne⟩
    · simp at h

theorem chatApi_ok (cfg : Config) (resp : Except String ChatResponse) (r : AnalysisResult)
    (h : analyzeWithCompletionsApi cfg resp = .ok r) :
    r.success = true ∧ r.error = none ∧ ∃ s, r.answer = some s := by
  unfold analyzeWithCompletionsApi at h
  cases resp with
  | error e => simp at h
  | ok rr =>
    dsimp only at h
    split at h
    · simp at h
    · next c hc =>
      simp only [Except.ok.injEq] at h
      subst h
      exact ⟨rfl, rfl, pyStrip c, rfl⟩

theorem gemApi_ok (cfg : Config) (resp : Except String GemResponse) (r : AnalysisResult)
    (h : analyzeWithGemini cfg resp = .ok r) :
    r.success = true ∧ r.error = none ∧ ∃ s, r.answer = some s := by
  unfold analyzeWithGemini at h
  cases resp with
  | error e => simp at h
  | ok rr =>
    dsimp only at h
    split at h
    · simp at h
    · next t ht =>
      split at h
      · simp at h
      · split at h
        · simp at h
        · simp only [Except.ok.injEq] at h
          subst h
          refine ⟨rfl, rfl, _, rfl⟩

theorem respStream_ok (cfg : Config) (cb : Bool) (evs : List RespEvent)
    (err : Option String) (r : AnalysisResult)
    (h : (analyzeWithResponsesApiStreaming cfg cb evs err).2 = .ok r) :
    r.success = true ∧ r.error = none ∧ ∃ s, r.answer = some s ∧ s ≠ "" := by
  unfold analyzeWithResponsesApiStreaming at h
  cases err with
  | some e => simp at h
  | none =>
    dsimp only at h
    split at h
    · simp at h
    · next hne =>
      simp only [Except.ok.injEq] at h
      subst h
      exact ⟨rfl, rfl, _, rfl, hne⟩

theorem chatStream_ok (cfg : Config) (cb : Bool) (chunks : List ChatChunk)
    (err : Option String) (r : AnalysisResult)
    (h : (analyzeWithCompletionsApiStreaming cfg cb chunks err).2 = .ok r) :
    r.success = true ∧ r.error = none ∧ ∃ s, r.answer = some s ∧ s ≠ "" := by
  unfold analyzeWithCompletionsApiStreaming at h
  cases err with
  | some e => simp at h
  | none =>
    dsimp only at h
    split at h
    · simp at h
    · next hne =>
      simp only [Except.ok.injEq] at h
      subst h
      exact ⟨rfl, rfl, _, rfl, hne⟩

theorem gemCore_ok (cfg : Config) (cb : Bool) (chunks : List GemChunk)
    (err : Option String) (r : AnalysisResult)
    (h : (geminiStreamingCore cfg cb chunks err).2 = .ok r) :
    r.success = true ∧ r.error = none ∧ ∃ s, r.answer = some s := by
  unfold geminiStreamingCore at h
  cases err with
  | some e => simp at h
  | none =>
    dsimp only at h
    split at h
    · simp at h
    · next hne =>
      simp only [Except.ok.injEq] at h
      subst h
      exact ⟨rfl, rfl, _, rfl⟩

theorem dispatchSingle_ok (cfg : Config) (cb : Bool) (env : ProviderEnv) (r : AnalysisResult)
    (h : (dispatchSingle cfg cb env).2 = .ok r) :
    r.success = true ∧ r.error = none ∧ r.answer ≠ none := by
  unfold dispatchSingle at h
  cases hv : selectVariant cfg cb <;> rw [hv] at h <;> dsimp only at h
  case geminiStreaming =>
    obtain ⟨a, b, s, hs⟩ := gemCore_ok _ _ _ _ _ h
    exact ⟨a, b, by simp [hs]⟩
  case geminiBuffered =>
    obtain ⟨a, b, s, hs⟩ := gemApi_ok _ _ _ h
    exact ⟨a, b, by simp [hs]⟩
  case responsesStreaming =>
    obtain ⟨a, b, s, hs, _⟩ := respStream_ok _ _ _ _ _ h
    exact ⟨a, b, by simp [hs]⟩
  case completionsStreaming =>
    obtain ⟨a, b, s, hs, _⟩ := chatStream_ok _ _ _ _ _ h
    exact ⟨a, b, by simp [hs]⟩
  case responsesBuffered =>
    obtain ⟨a, b, s, hs, _⟩ := respApi_ok _ _ _ h
    exact ⟨a, b, by simp [hs]⟩
  case completionsBuffered =>
    obtain ⟨a, b, s, hs⟩ := chatApi_ok _ _ _ h
    exact ⟨a, b, by simp [hs]⟩

theorem dispatchSingle_ok_nonempty (cfg : Config) (cb : Bool) (env : ProviderEnv)
    (r : AnalysisResult)
    (hv : selectVariant cfg cb = .responsesBuffered ∨
          selectVariant cfg cb = .responsesStreaming ∨
          selectVariant cfg cb = .completionsStreaming)
    (h : (dispatchSingle cfg cb env).2 = .ok r) :
    ∃ s, r.answer = some s ∧ s ≠ "" := by
  unfold dispatchSingle at h
  rcases hv with hv | hv | hv <;> rw [hv] at h <;> dsimp only at h
  · exact (respApi_ok _ _ _ h).2.2
  · exact (respStream_ok _ _ _ _ _ h).2.2
  · exact (chatStream_ok _ _ _ _ _ h).2.2

theorem dispatchMulti_ok (cfg : Config) (cb : Bool) (env : ProviderEnv) (r : AnalysisResult)
    (h : (dispatchMulti cfg cb env).2 = .ok r) :
    r.success = true ∧ r.error = none ∧ r.answer ≠ none := by
  unfold dispatchMulti at h
  dsimp only at h
  split at h
  · split at h
    · obtain ⟨a, b, s, hs⟩ := gemCore_ok _ _ _ _ _ h
      exact ⟨a, b, by simp [hs]⟩
    · dsimp only at h
      obtain ⟨a, b, s, hs⟩ := gemApi_ok _ _ _ h
      exact ⟨a, b, by simp [hs]⟩
  · split at h
    · dsimp only at h
      obtain ⟨a, b, s, hs, _⟩ := respApiMulti_ok _ _ _ h
      exact ⟨a, b, by simp [hs]⟩
    · dsimp only at h
      obtain ⟨a, b, s, hs⟩ := chatApi_ok _ _ _ h
      exact ⟨a, b, by simp [hs]⟩

theorem dispatchMulti_ok_nonempty (cfg : Config) (cb : Bool) (env : ProviderEnv)
    (r : AnalysisResult)
    (hv : selectVariantMulti cfg cb = .responsesBuffered)
    (h : (dispatchMulti cfg cb env).2 = .ok r) :
    ∃ s, r.answer = some s ∧ s ≠ "" := by
  unfold dispatchMulti at h
  dsimp only at h
  unfold selectVariantMulti at hv
  dsimp only at hv
  split at h
  · next hg =>
    rw [if_pos hg] at hv
    split at hv <;> simp at hv
  · next hg =>
    rw [if_neg hg] at hv
    split at h
    · exact (respApiMulti_ok _ _ _ h).2.2
    · next hr => rw [if_neg hr] at hv; simp at hv

theorem analyzeExam_okCase (cfg : Config) (cb : Bool) (env : ProviderEnv) (r : AnalysisResult)
    (h : (dispatchSingle cfg cb env).2 = .ok r) :
    (analyzeExamScreenshot cfg cb env).2 = r := by
  unfold analyzeExamScreenshot
  rcases hd : dispatchSingle cfg cb env with ⟨frs, res⟩
  rw [hd] at h
  dsimp only at h
  subst h
  rfl

theorem analyzeExam_errCase (cfg : Config) (cb : Bool) (env : ProviderEnv) (e : String)
    (h : (dispatchSingle cfg cb env).2 = .error e) :
    (analyzeExamScreenshot cfg cb env).2 = failureResult cfg e := by
  unfold analyzeExamScreenshot
  rcases hd : dispatchSingle cfg cb env with ⟨frs, res⟩
  rw [hd] at h
  dsimp only at h
  subst h
  rfl

theorem analyzeMulti_okCase (cfg : Config) (cb : Bool) (env : ProviderEnv)
    (ss : List Unit) (r : AnalysisResult) (hne : ss ≠ [])
    (h : (dispatchMulti cfg cb env).2 = .ok r) :
    (analyzeMultiScreenshots cfg cb env ss).2 = r := by
  cases ss with
  | nil => exact absurd rfl hne
  | cons a t =>
    unfold analyzeMultiScreenshots
    rcases hd : dispatchMulti cfg cb env with ⟨frs, res⟩
    rw [hd] at h
    dsimp only at h
    subst h
    rfl

theorem analyzeMulti_errCase (cfg : Config) (cb : Bool) (env : ProviderEnv)
    (ss : List Unit) (e : String) (hne : ss ≠ [])
    (h : (dispatchMulti cfg cb env).2 = .error e) :
    (analyzeMultiScreenshots cfg cb env ss).2 = failureResult cfg e := by
  cases ss with
  | nil => exact absurd rfl hne
  | cons a t =>
    unfold analyzeMultiScreenshots
    rcases hd : dispatchMulti cfg cb env with ⟨frs, res⟩
    rw [hd] at h
    dsimp only at h
    subst h
    rfl

/-- Claim C6: whenever the delegated adapter raises (modelled as the
dispatch producing `.error e`), both analyze entry points return a result
with success false and error equal to str(e); the entry points are total, so
no exception propagates to the caller. -/
theorem claim_C6 :
    ∀ (cfg : Config) (cb : Bool) (env : ProviderEnv) (e : String),
      ((dispatchSingle cfg cb env).2 = .error e →
        (analyzeExamScreenshot cfg cb env).2 = failureResult cfg e ∧
        (analyzeExamScreenshot cfg cb env).2.success = false ∧
        (analyzeExamScreenshot cfg cb env).2.error = some e) ∧
      (∀ ss : List Unit, ss ≠ [] → (dispatchMulti cfg cb env).2 = .error e →
        (analyzeMultiScreenshots cfg cb env ss).2 = failureResult cfg e ∧
        (analyzeMultiScreenshots cfg cb env ss).2.success = false ∧
        (analyzeMultiScreenshots cfg cb env ss).2.error = some e) := by
  intro cfg cb env e
  constructor
  · intro h
    have hE := analyzeExam_errCase cfg cb env e h
    exact ⟨hE, by rw [hE]; rfl, by rw [hE]; rfl⟩
  · intro ss hne h
    have hE := analyzeMulti_errCase cfg cb env ss e hne h
    exact ⟨hE, by rw [hE]; rfl, by rw [hE]; rfl⟩

/-- Witness for C6 at a concrete failing transport. -/
theorem claim_C6_witness :
    ((dispatchSingle cfgCompletions false envAllFail).2 = .error "boom" ∧
     (analyzeExamScreenshot cfgCompletions false envAllFail).2 = failureResult cfgCompletions "boom") ∧
    ((dispatchMulti cfgCompletions false envAllFail).2 = .error "boom" ∧
     (analyzeMultiScreenshots cfgCompletions false envAllFail [()]).2 = failureResult cfgCompletions "boom") :=
  ⟨⟨rfl, ((claim_C6 cfgCompletions false envAllFail "boom").1 rfl).1⟩,
   ⟨rfl, ((claim_C6 cfgCompletions false envAllFail "boom").2 [()] (by decide) rfl).1⟩⟩

/-- Claim C10: the multi-image entry point on an empty screenshot list
returns, independently of the provider environment, success false, no
answer, error "No screenshots provided", and no model field, while every
other failure result of that entry point carries a model field. -/
theorem claim_C10 :
    ∀ (cfg : Config) (cb : Bool) (env : ProviderEnv),
      analyzeMultiScreenshots cfg cb env [] = ([], noScreenshotsResult) ∧
      noScreenshotsResult.success = false ∧
      noScreenshotsResult.answer = none ∧
      noScreenshotsResult.model = none ∧
      noScreenshotsResult.error = some "No screenshots provided" ∧
      (∀ (ss : List Unit) (r : AnalysisResult), ss ≠ [] →
        (analyzeMultiScreenshots cfg cb env ss).2 = r → r.success = false →
        r.model = some (if usesGemini cfg then cfg.gemini_model else cfg.openai_model)) := by
  intro cfg cb env
  refine ⟨rfl, rfl, rfl, rfl, rfl, ?_⟩
  intro ss r hne hr hs
  cases hres : (dispatchMulti cfg cb env).2 with
  | ok r2 =>
    have hE := analyzeMulti_okCase cfg cb env ss r2 hne hres
    rw [hE] at hr
    subst hr
    obtain ⟨hsucc, _, _⟩ := dispatchMulti_ok cfg cb env r2 hres
    rw [hsucc] at hs
    exact absurd hs (by decide)
  | error e =>
    have hE := analyzeMulti_errCase cfg cb env ss e hne hres
    rw [hE] at hr
    subst hr
    rfl

/-- Witness for C10 at a concrete configuration and a concrete non-empty
failing call. -/
theorem claim_C10_witness :
    analyzeMultiScreenshots cfgCompletions false envAllFail [] = ([], noScreenshotsResult) ∧
    (analyzeMultiScreenshots cfgCompletions false envAllFail [()]).2.model = some "gpt-4o" :=
  ⟨(claim_C10 cfgCompletions false envAllFail).1,
   (claim_C10 cfgCompletions false envAllFail).2.2.2.2.2 [()]
     ((analyzeMultiScreenshots cfgCompletions false envAllFail [()]).2)
     (by decide) rfl rfl⟩

/-- Counterexample to C1 as stated: the buffered Completions adapter
returns success true with an empty answer when the vendor message content is
whitespace, and the buffered Gemini adapter does the same when the
JSON-cleaning fallback collapses a bare code fence to the empty string. -/
theorem claim_C1_counterexample :
    ((analyzeExamScreenshot cfgCompletions false envChatBlank).2.success = true ∧
     (analyzeExamScreenshot cfgCompletions false envChatBlank).2.answer = some "" ∧
     (analyzeExamScreenshot cfgCompletions false envChatBlank).2.error = none) ∧
    ((analyzeExamScreenshot cfgGemini false envGemFence).2.success = true ∧
     (analyzeExamScreenshot cfgGemini false envGemFence).2.answer = some "" ∧
     (analyzeExamScreenshot cfgGemini false envGemFence).2.error = none) :=
  ⟨⟨rfl, rfl, rfl⟩, ⟨rfl, rfl, rfl⟩⟩

/-- Claim C1 amended: for every analysis call (single or multi-image, any
adapter variant), success is true iff the error field is absent, and success
implies the answer field is present; the answer is moreover non-empty
whenever the selected variant is the Responses buffered, Responses streaming
or Completions streaming adapter (the buffered Completions adapter and the
Gemini JSON-cleaning fallback may produce success with an empty answer). -/
theorem claim_C1_amended :
    (∀ (cfg : Config) (cb : Bool) (env : ProviderEnv),
      ((analyzeExamScreenshot cfg cb env).2.success = true ↔
        (analyzeExamScreenshot cfg cb env).2.error = none) ∧
      ((analyzeExamScreenshot cfg cb env).2.success = true →
        (analyzeExamScreenshot cfg cb env).2.answer ≠ none) ∧
      ((selectVariant cfg cb = .responsesBuffered ∨
        selectVariant cfg cb = .responsesStreaming ∨
        selectVariant cfg cb = .completionsStreaming) →
       (analyzeExamScreenshot cfg cb env).2.success = true →
       ∃ s, (analyzeExamScreenshot cfg cb env).2.answer = some s ∧ s ≠ "")) ∧
    (∀ (cfg : Config) (cb : Bool) (env : ProviderEnv) (ss : List Unit),
      ((analyzeMultiScreenshots cfg cb env ss).2.success = true ↔
        (analyzeMultiScreenshots cfg cb env ss).2.error = none) ∧
      ((analyzeMultiScreenshots cfg cb env ss).2.success = true →
        (analyzeMultiScreenshots cfg cb env ss).2.answer ≠ none) ∧
      (selectVariantMulti cfg cb = .responsesBuffered →
       (analyzeMultiScreenshots cfg cb env ss).2.success = true →
       ∃ s, (analyzeMultiScreenshots cfg cb env ss).2.answer = some s ∧ s ≠ "")) := by
  constructor
  · intro cfg cb env
    cases hres : (dispatchSingle cfg cb env).2 with
    | ok r =>
      have hE := analyzeExam_okCase cfg cb env r hres
      obtain ⟨hsucc, herr, hans⟩ := dispatchSingle_ok cfg cb env r hres
      rw [hE]
      refine ⟨by simp [hsucc, herr], fun _ => hans, ?_⟩
      intro hv _
      exact dispatchSingle_ok_nonempty cfg cb env r hv hres
    | error e =>
      have hE := analyzeExam_errCase cfg cb env e hres
      rw [hE]
      refine ⟨by simp [failureResult], ?_, ?_⟩
      · intro h
        exact absurd h (by simp [failureResult])
      · intro _ h
        exact absurd h (by simp [failureResult])
  · intro cfg cb env ss
    cases ss with
    | nil =>
      refine ⟨by simp [analyzeMultiScreenshots, noScreenshotsResult], ?_, ?_⟩
      · intro h
        exact absurd h (by simp [analyzeMultiScreenshots, noScreenshotsResult])
      · intro _ h
        exact absurd h (by simp [analyzeMultiScreenshots, noScreenshotsResult])
    | cons a t =>
      cases hres : (dispatchMulti cfg cb env).2 with
      | ok r =>
        have hE := analyzeMulti_okCase cfg cb env (a :: t) r (by simp) hres
        obtain ⟨hsucc, herr, hans⟩ := dispatchMulti_ok cfg cb env r hres
        rw [hE]
        refine ⟨by simp [hsucc, herr], fun _ => hans, ?_⟩
        intro hv _
        exact dispatchMulti_ok_nonempty cfg cb env r hv hres
      | error e =>
        have hE := analyzeMulti_errCase cfg cb env (a :: t) e (by simp) hres
        rw [hE]
        refine ⟨by simp [failureResult], ?_, ?_⟩
        · intro h
          exact absurd h (by simp [failureResult])
        · intro _ h
          exact absurd h (by simp [failureResult])

/-- Witness for C1 at a concrete successful Responses-API call. -/
theorem claim_C1_witness :
    (analyzeExamScreenshot cfgResponses false envRespOk).2.success = true ∧
    (analyzeExamScreenshot cfgResponses false envRespOk).2.error = none ∧
    ∃ s, (analyzeExamScreenshot cfgResponses false envRespOk).2.answer = some s ∧ s ≠ "" :=
  ⟨rfl,
   (claim_C1_amended.1 cfgResponses false envRespOk).1.mp rfl,
   (claim_C1_amended.1 cfgResponses false envRespOk).2.2 (Or.inl rfl) rfl⟩

theorem respStep_inv (cfg : Config) (st : RespStreamState) (ev : RespEvent)
    (h : answerTexts st.sink = st.answerContent) :
    answerTexts ((respStreamStep cfg true st ev).sink)
      = (respStreamStep cfg true st ev).answerContent := by
  simp only [answerTexts] at h
  cases ev with
  | reasoningSummaryDelta d =>
    cases d with
    | none => exact h
    | some c =>
      dsimp only [respStreamStep]
      split
      · simp [answerTexts, List.filter_append, h]
      · exact h
  | outputTextDelta d =>
    cases d with
    | none => exact h
    | some c =>
      dsimp only [respStreamStep]
      split
      · simp [answerTexts, List.filter_append, h]
      · exact h
  | webSearchSearching =>
    dsimp only [respStreamStep]
    simp [answerTexts, List.filter_append, h]
  | webSearchDone =>
    dsimp only [respStreamStep]
    simp [answerTexts, List.filter_append, h]
  | responseDone u =>
    cases u with
    | none => exact h
    | some tk => exact h
  | reasoningSummaryDone => exact h
  | outputTextDone => exact h
  | otherEvent => exact h

theorem respFold_inv (cfg : Config) (evs : List RespEvent) :
    ∀ st : RespStreamState, answerTexts st.sink = st.answerContent →
      answerTexts ((evs.foldl (respStreamStep cfg true) st).sink)
        = (evs.foldl (respStreamStep cfg true) st).answerContent := by
  induction evs with
  | nil => intro st h; exact h
  | cons ev t ih =>
    intro st h
    exact ih _ (respStep_inv cfg st ev h)

theorem chatStep_inv (st : ChatStreamState) (ch : ChatChunk)
    (h : answerTexts st.sink = st.answerChunks) :
    answerTexts ((chatStreamStep true st ch).sink)
      = (chatStreamStep true st ch).answerChunks := by
  simp only [answerTexts] at h
  cases hd : ch.deltaContent with
  | none =>
    cases hu : ch.usage with
    | none => simp [chatStreamStep, hd, hu, answerTexts, h]
    | some u => simp [chatStreamStep, hd, hu, answerTexts, h]
  | some c =>
    cases hu : ch.usage with
    | none =>
      dsimp only [chatStreamStep]
      rw [hd, hu]
      dsimp only
      split
      · simp [answerTexts, List.filter_append, h]
      · exact h
    | some u =>
      dsimp only [chatStreamStep]
      rw [hd, hu]
      dsimp only
      split
      · simp [answerTexts, List.filter_append, h]
      · exact h

theorem chatFold_inv (chunks : List ChatChunk) :
    ∀ st : ChatStreamState, answerTexts st.sink = st.answerChunks →
      answerTexts ((chunks.foldl (chatStreamStep true) st).sink)
        = (chunks.foldl (chatStreamStep true) st).answerChunks := by
  induction chunks with
  | nil => intro st h; exact h
  | cons ch t ih =>
    intro st h
    exact ih _ (chatStep_inv st ch h)

/-- Claim C2 amended: for every OpenAI streaming call (Responses or
Completions variant) that succeeds with a sink configured, the terminal
answer equals the whitespace-stripped concatenation, in delivery order, of
the answer-kind fragments delivered to the sink (byte-for-byte equality thus
holds only up to the final strip; Gemini streaming is excluded because it
accumulates thought parts into the answer). -/
theorem claim_C2_amended :
    (∀ (cfg : Config) (evs : List RespEvent) (err : Option String)
       (frs : List Fragment) (r : AnalysisResult),
       analyzeWithResponsesApiStreaming cfg true evs err = (frs, .ok r) →
       r.answer = some (pyStrip (answerFragmentsText frs))) ∧
    (∀ (cfg : Config) (chunks : List ChatChunk) (err : Option String)
       (frs : List Fragment) (r : AnalysisResult),
       analyzeWithCompletionsApiStreaming cfg true chunks err = (frs, .ok r) →
       r.answer = some (pyStrip (answerFragmentsText frs))) := by
  constructor
  · intro cfg evs err frs r h
    unfold analyzeWithResponsesApiStreaming at h
    cases err with
    | some e => simp at h
    | none =>
      dsimp only at h
      split at h
      · simp at h
      · simp only [Prod.mk.injEq, Except.ok.injEq] at h
        obtain ⟨h1, h2⟩ := h
        subst h1
        subst h2
        simp only [answerFragmentsText]
        rw [respFold_inv cfg evs initRespStreamState rfl]
  · intro cfg chunks err frs r h
    unfold analyzeWithCompletionsApiStreaming at h
    cases err with
    | some e => simp at h
    | none =>
      dsimp only at h
      split at h
      · simp at h
      · simp only [Prod.mk.injEq, Except.ok.injEq] at h
        obtain ⟨h1, h2⟩ := h
        subst h1
        subst h2
        simp only [answerFragmentsText]
        rw [chatFold_inv chunks initChatStreamState rfl]

/-- Counterexample to C2 as stated: a Responses streaming call delivering
one whitespace-padded answer fragment succeeds with the stripped answer, so
the raw concatenation of delivered answer fragments differs from the
terminal answer byte-for-byte. -/
theorem claim_C2_counterexample :
    analyzeExamScreenshot cfgResponsesStreaming true envRespPadded =
      ([⟨" hi ", "answer"⟩],
       { success := true, answer := some "hi", model := some "gpt-5.2",
         tokens_used := some 0, error := none }) ∧
    answerFragmentsText [⟨" hi ", "answer"⟩] = " hi " ∧
    (" hi " : String) ≠ "hi" :=
  ⟨rfl, rfl, by decide⟩

/-- Witness for C2 at a concrete two-fragment Responses stream. -/
theorem claim_C2_witness :
    analyzeWithResponsesApiStreaming cfgResponsesStreaming true c2wEvents none =
      ([⟨"A", "answer"⟩, ⟨"B", "answer"⟩],
       .ok { success := true, answer := some "AB", model := some "gpt-5.2",
             tokens_used := some 5, error := none }) ∧
    ({ success := true, answer := some "AB", model := some "gpt-5.2",
       tokens_used := some 5, error := none } : AnalysisResult).answer =
      some (pyStrip (answerFragmentsText [⟨"A", "answer"⟩, ⟨"B", "answer"⟩])) :=
  ⟨rfl, claim_C2_amended.1 cfgResponsesStreaming c2wEvents none
          [⟨"A", "answer"⟩, ⟨"B", "answer"⟩] _ rfl⟩

theorem respStep_answer (cfg : Config) (cb : Bool) (st : RespStreamState) (ev : RespEvent) :
    (respStreamStep cfg cb st ev).answerContent
      = st.answerContent ++ respAnswerDeltas [ev] := by
  cases ev with
  | reasoningSummaryDelta d =>
    cases d with
    | none => simp [respStreamStep, respAnswerDeltas]
    | some c =>
      dsimp only [respStreamStep]
      split
      · split <;> simp [respAnswerDeltas]
      · simp [respAnswerDeltas]
  | outputTextDelta d =>
    cases d with
    | none => simp [respStreamStep, respAnswerDeltas]
    | some c =>
      dsimp only [respStreamStep]
      split
      · next hc =>
        split <;> simp [respAnswerDeltas, hc]
      · next hc =>
        simp only [respAnswerDeltas, List.filterMap]
        rw [if_neg hc]
        simp
  | webSearchSearching =>
    dsimp only [respStreamStep]
    split <;> simp [respAnswerDeltas]
  | webSearchDone =>
    dsimp only [respStreamStep]
    split <;> simp [respAnswerDeltas]
  | responseDone u =>
    cases u with
    | none => simp [respStreamStep, respAnswerDeltas]
    | some tk => simp [respStreamStep, respAnswerDeltas]
  | reasoningSummaryDone => simp [respStreamStep, respAnswerDeltas]
  | outputTextDone => simp [respStreamStep, respAnswerDeltas]
  | otherEvent => simp [respStreamStep, respAnswerDeltas]

theorem respStep_tokens (cfg : Config) (cb : Bool) (st : RespStreamState) (ev : RespEvent) :
    (respStreamStep cfg cb st ev).totalTokens = respTokenStep st.totalTokens ev := by
  cases ev with
  | reasoningSummaryDelta d =>
    cases d with
    | none => rfl
    | some c =>
      dsimp only [respStreamStep, respTokenStep]
      split
      · split <;> rfl
      · rfl
  | outputTextDelta d =>
    cases d with
    | none => rfl
    | some c =>
      dsimp only [respStreamStep, respTokenStep]
      split
      · split <;> rfl
      · rfl
  | webSearchSearching =>
    dsimp only [respStreamStep, respTokenStep]
    split <;> rfl
  | webSearchDone =>
    dsimp only [respStreamStep, respTokenStep]
    split <;> rfl
  | responseDone u =>
    cases u with
    | none => rfl
    | some tk => rfl
  | reasoningSummaryDone => rfl
  | outputTextDone => rfl
  | otherEvent => rfl

theorem respFold_answer (cfg : Config) (cb : Bool) (evs : List RespEvent) :
    ∀ st : RespStreamState,
      (evs.foldl (respStreamStep cfg cb) st).answerContent
        = st.answerContent ++ respAnswerDeltas evs := by
  induction evs with
  | nil => intro st; simp [respAnswerDeltas]
  | cons ev t ih =>
    intro st
    rw [List.foldl_cons, ih, respStep_answer]
    show (st.answerContent ++ respAnswerDeltas [ev]) ++ respAnswerDeltas t
      = st.answerContent ++ respAnswerDeltas (ev :: t)
    rw [List.append_assoc]
    congr 1
    simp [respAnswerDeltas, List.filterMap_cons]
    split <;> simp

theorem respFold_tokens (cfg : Config) (cb : Bool) (evs : List RespEvent) :
    ∀ st : RespStreamState,
      (evs.foldl (respStreamStep cfg cb) st).totalTokens
        = evs.foldl respTokenStep st.totalTokens := by
  induction evs with
  | nil => intro st; rfl
  | cons ev t ih =>
    intro st
    rw [List.foldl_cons, ih, respStep_tokens, List.foldl_cons]

theorem respStream_result (cfg : Config) (cb : Bool) (evs : List RespEvent)
    (err : Option String) :
    (analyzeWithResponsesApiStreaming cfg cb evs err).2 =
      (match err with
       | some e => .error e
       | none =>
         if pyStrip (String.join (respAnswerDeltas evs)) = "" then .error emptyStreamMsg
         else .ok { success := true,
                    answer := some (pyStrip (String.join (respAnswerDeltas evs))),
                    model := some cfg.openai_model,
                    tokens_used := some (evs.foldl respTokenStep 0), error := none }) := by
  unfold analyzeWithResponsesApiStreaming
  cases err with
  | some e => rfl
  | none =>
    dsimp only
    rw [respFold_answer cfg cb evs initRespStreamState,
        respFold_tokens cfg cb evs initRespStreamState]
    show ((if pyStrip (String.join ([] ++ respAnswerDeltas evs)) = "" then _ else _ :
           List Fragment × Except String AnalysisResult)).2 = _
    rw [List.nil_append]
    split <;> rfl

theorem respDeltas_filterReason (evs : List RespEvent) :
    respAnswerDeltas (evs.filter (fun e => !isReasoningEvent e)) = respAnswerDeltas evs := by
  induction evs with
  | nil => rfl
  | cons ev t ih =>
    cases ev <;> simp [isReasoningEvent, respAnswerDeltas, List.filterMap_cons] at ih ⊢ <;>
      rw [ih]

theorem respTokens_filterReason (evs : List RespEvent) :
    ∀ tk : Nat,
      (evs.filter (fun e => !isReasoningEvent e)).foldl respTokenStep tk
        = evs.foldl respTokenStep tk := by
  induction evs with
  | nil => intro tk; rfl
  | cons ev t ih =>
    intro tk
    cases ev with
    | reasoningSummaryDelta d => exact ih tk
    | reasoningSummaryDone => exact ih tk
    | webSearchSearching => exact ih tk
    | webSearchDone => exact ih tk
    | outputTextDelta d => exact ih tk
    | outputTextDone => exact ih tk
    | responseDone u =>
      cases u with
      | none => exact ih tk
      | some v => exact ih v
    | otherEvent => exact ih tk

theorem respStep_noReason (cfg : Config) (cb : Bool) (st : RespStreamState)
    (ev : RespEvent) (hflag : cfg.streaming_show_reasoning = false)
    (h : ∀ f ∈ st.sink, f.kind ≠ "reasoning") :
    ∀ f ∈ (respStreamStep cfg cb st ev).sink, f.kind ≠ "reasoning" := by
  cases ev with
  | reasoningSummaryDelta d =>
    cases d with
    | none => exact h
    | some c =>
      dsimp only [respStreamStep]
      rw [hflag]
      simp only [Bool.and_false]
      exact h
  | outputTextDelta d =>
    cases d with
    | none => exact h
    | some c =>
      dsimp only [respStreamStep]
      split
      · split
        · intro f hf
          rcases List.mem_append.mp hf with hf | hf
          · exact h f hf
          · simp only [List.mem_singleton] at hf
            subst hf
            simp
        · exact h
      · exact h
  | webSearchSearching =>
    dsimp only [respStreamStep]
    split
    · intro f hf
      rcases List.mem_append.mp hf with hf | hf
      · exact h f hf
      · simp only [List.mem_singleton] at hf
        subst hf
        simp
    · exact h
  | webSearchDone =>
    dsimp only [respStreamStep]
    split
    · intro f hf
      rcases List.mem_append.mp hf with hf | hf
      · exact h f hf
      · simp only [List.mem_singleton] at hf
        subst hf
        simp
    · exact h
  | responseDone u =>
    cases u with
    | none => exact h
    | some tk => exact h
  | reasoningSummaryDone => exact h
  | outputTextDone => exact h
  | otherEvent => exact h

theorem respFold_noReason (cfg : Config) (cb : Bool) (evs : List RespEvent)
    (hflag : cfg.streaming_show_reasoning = false) :
    ∀ st : RespStreamState, (∀ f ∈ st.sink, f.kind ≠ "reasoning") →
      ∀ f ∈ ((evs.foldl (respStreamStep cfg cb) st).sink), f.kind ≠ "reasoning" := by
  induction evs with
  | nil => intro st h; exact h
  | cons ev t ih =>
    intro st h
    exact ih _ (respStep_noReason cfg cb st ev hflag h)

theorem respStep_sink_extend (cfg : Config) (cb : Bool) (st : RespStreamState)
    (ev : RespEvent) :
    ∃ t, (respStreamStep cfg cb st ev).sink = st.sink ++ t := by
  cases ev with
  | reasoningSummaryDelta d =>
    cases d with
    | none => exact ⟨[], (List.append_nil _).symm⟩
    | some c =>
      dsimp only [respStreamStep]
      split
      · split
        · exact ⟨_, rfl⟩
        · exact ⟨[], (List.append_nil _).symm⟩
      · exact ⟨[], (List.append_nil _).symm⟩
  | outputTextDelta d =>
    cases d with
    | none => exact ⟨[], (List.append_nil _).symm⟩
    | some c =>
      dsimp only [respStreamStep]
      split
      · split
        · exact ⟨_, rfl⟩
        · exact ⟨[], (List.append_nil _).symm⟩
      · exact ⟨[], (List.append_nil _).symm⟩
  | webSearchSearching =>
    dsimp only [respStreamStep]
    split
    · exact ⟨_, rfl⟩
    · exact ⟨[], (List.append_nil _).symm⟩
  | webSearchDone =>
    dsimp only [respStreamStep]
    split
    · exact ⟨_, rfl⟩
    · exact ⟨[], (List.append_nil _).symm⟩
  | responseDone u =>
    cases u with
    | none => exact ⟨[], (List.append_nil _).symm⟩
    | some tk => exact ⟨[], (List.append_nil _).symm⟩
  | reasoningSummaryDone => exact ⟨[], (List.append_nil _).symm⟩
  | outputTextDone => exact ⟨[], (List.append_nil _).symm⟩
  | otherEvent => exact ⟨[], (List.append_nil _).symm⟩

theorem respFold_sink_extend (cfg : Config) (cb : Bool) (evs : List RespEvent) :
    ∀ st : RespStreamState,
      ∃ t, (evs.foldl (respStreamStep cfg cb) st).sink = st.sink ++ t := by
  induction evs with
  | nil => intro st; exact ⟨[], (List.append_nil _).symm⟩
  | cons ev t ih =>
    intro st
    obtain ⟨t1, h1⟩ := respStep_sink_extend cfg cb st ev
    obtain ⟨t2, h2⟩ := ih (respStreamStep cfg cb st ev)
    exact ⟨t1 ++ t2, by rw [List.foldl_cons, h2, h1, List.append_assoc]⟩

/-- Claim C3 amended, for the Responses streaming adapter: when the
show-reasoning flag is false no delivered fragment has reasoning kind; the
call result is unchanged if all reasoning events are removed from the stream
(reasoning content is never appended to the accumulated answer or to the
token count); and when the flag is true a non-empty reasoning delta is
always delivered to the sink as a reasoning fragment.  (Gemini streaming
violates the original claim: see the counterexample.) -/
theorem claim_C3_amended :
    (∀ (cfg : Config) (cb : Bool) (evs : List RespEvent) (err : Option String),
       cfg.streaming_show_reasoning = false →
       ∀ f ∈ (analyzeWithResponsesApiStreaming cfg cb evs err).1, f.kind ≠ "reasoning") ∧
    (∀ (cfg : Config) (cb : Bool) (evs : List RespEvent) (err : Option String),
       (analyzeWithResponsesApiStreaming cfg cb
          (evs.filter (fun e => !isReasoningEvent e)) err).2
         = (analyzeWithResponsesApiStreaming cfg cb evs err).2) ∧
    (∀ (cfg : Config) (evs₁ evs₂ : List RespEvent) (err : Option String) (c : String),
       cfg.streaming_show_reasoning = true → c ≠ "" →
       Fragment.mk c "reasoning" ∈
         (analyzeWithResponsesApiStreaming cfg true
            (evs₁ ++ .reasoningSummaryDelta (some c) :: evs₂) err).1) := by
  refine ⟨?_, ?_, ?_⟩
  · intro cfg cb evs err hflag f hf
    have hsink := respFold_noReason cfg cb evs hflag initRespStreamState
      (by intro g hg; simp [initRespStreamState] at hg)
    unfold analyzeWithResponsesApiStreaming at hf
    cases err with
    | some e =>
      dsimp only at hf
      rcases List.mem_append.mp hf with hf | hf
      · exact hsink f hf
      · unfold errFrag at hf
        split at hf
        · simp only [List.mem_singleton] at hf
          subst hf
          simp
        · simp at hf
    | none =>
      dsimp only at hf
      split at hf
      · rcases List.mem_append.mp hf with hf | hf
        · exact hsink f hf
        · unfold errFrag at hf
          split at hf
          · simp only [List.mem_singleton] at hf
            subst hf
            simp
          · simp at hf
      · exact hsink f hf
  · intro cfg cb evs err
    cases err with
    | some e => rfl
    | none =>
      rw [respStream_result, respStream_result]
      dsimp only
      rw [respDeltas_filterReason, respTokens_filterReason]
  · intro cfg evs₁ evs₂ err c hflag hc
    have hmem : Fragment.mk c "reasoning" ∈
        ((evs₁ ++ RespEvent.reasoningSummaryDelta (some c) :: evs₂).foldl
          (respStreamStep cfg true) initRespStreamState).sink := by
      rw [List.foldl_append, List.foldl_cons]
      have hstep : (respStreamStep cfg true
            (evs₁.foldl (respStreamStep cfg true) initRespStreamState)
            (.reasoningSummaryDelta (some c))).sink
          = (evs₁.foldl (respStreamStep cfg true) initRespStreamState).sink
              ++ [⟨c, "reasoning"⟩] := by
        dsimp only [respStreamStep]
        rw [hflag]
        simp [hc]
      obtain ⟨t2, h2⟩ := respFold_sink_extend cfg true evs₂
        (respStreamStep cfg true
          (evs₁.foldl (respStreamStep cfg true) initRespStreamState)
          (.reasoningSummaryDelta (some c)))
      rw [h2, hstep]
      simp
    unfold analyzeWithResponsesApiStreaming
    cases err with
    | some e =>
      dsimp only
      exact List.mem_append_left _ hmem
    | none =>
      dsimp only
      split
      · exact List.mem_append_left _ hmem
      · exact hmem

/-- Counterexample to C3 as stated: with the show-reasoning flag false, a
Gemini streaming call that receives one thought part still delivers it to
the sink as a reasoning fragment, and its text ends up in the answer. -/
theorem claim_C3_counterexample :
    cfgGeminiStreaming.streaming_show_reasoning = false ∧
    analyzeExamScreenshot cfgGeminiStreaming true envGemThought =
      ([⟨"think", "reasoning"⟩],
       { success := true, answer := some "think", model := some "gemini-2.5-pro",
         tokens_used := some 0, error := none }) :=
  ⟨rfl, rfl⟩

/-- Witness for C3 at a concrete Responses stream with the flag true. -/
theorem claim_C3_witness :
    cfgResponsesStreaming.streaming_show_reasoning = true ∧
    ("plan" : String) ≠ "" ∧
    Fragment.mk "plan" "reasoning" ∈
      (analyzeWithResponsesApiStreaming cfgResponsesStreaming true
        ([] ++ .reasoningSummaryDelta (some "plan") :: [.outputTextDelta (some "ok")]) none).1 :=
  ⟨rfl, by decide,
   claim_C3_amended.2.2 cfgResponsesStreaming [] [.outputTextDelta (some "ok")] none "plan"
     rfl (by decide)⟩

theorem respStream_emptyBuffer (cfg : Config) (cb : Bool) (evs : List RespEvent)
    (h : respAnswerBuffer cfg cb evs = []) :
    (analyzeWithResponsesApiStreaming cfg cb evs none).2 = .error emptyStreamMsg := by
  unfold analyzeWithResponsesApiStreaming
  unfold respAnswerBuffer at h
  dsimp only
  rw [h]
  rfl

theorem chatStream_emptyBuffer (cfg : Config) (cb : Bool) (chunks : List ChatChunk)
    (h : chatAnswerBuffer cb chunks = []) :
    (analyzeWithCompletionsApiStreaming cfg cb chunks none).2 = .error emptyStreamMsg := by
  unfold analyzeWithCompletionsApiStreaming
  unfold chatAnswerBuffer at h
  dsimp only
  rw [h]
  rfl

theorem gemCore_emptyBuffer (cfg : Config) (cb : Bool) (chunks : List GemChunk)
    (h : gemAnswerBuffer cb chunks = []) :
    (geminiStreamingCore cfg cb chunks none).2 = .error gemEmptyStreamMsg := by
  unfold geminiStreamingCore
  unfold gemAnswerBuffer at h
  dsimp only
  rw [h]
  rfl

/-- Claim C9: a streaming call whose stream is exhausted (no transport
error) with an empty answer accumulation buffer does not succeed: the
adapter raises the missing-content message, the orchestrator normalizes it
into success false with that message as error, and neither message contains
a transient keyword, so the retry classification treats it as permanent. -/
theorem claim_C9 :
    ∀ (cfg : Config) (cb : Bool) (env : ProviderEnv),
      (selectVariant cfg cb = .responsesStreaming → env.respStreamErr = none →
        respAnswerBuffer cfg cb env.respEvents = [] →
        (analyzeExamScreenshot cfg cb env).2.success = false ∧
        (analyzeExamScreenshot cfg cb env).2.error = some emptyStreamMsg) ∧
      (selectVariant cfg cb = .completionsStreaming → env.chatStreamErr = none →
        chatAnswerBuffer cb env.chatChunks = [] →
        (analyzeExamScreenshot cfg cb env).2.success = false ∧
        (analyzeExamScreenshot cfg cb env).2.error = some emptyStreamMsg) ∧
      (selectVariant cfg cb = .geminiStreaming → env.gemStreamErr = none →
        gemAnswerBuffer cb env.gemChunks = [] →
        (analyzeExamScreenshot cfg cb env).2.success = false ∧
        (analyzeExamScreenshot cfg cb env).2.error = some gemEmptyStreamMsg) ∧
      isTransient emptyStreamMsg = false ∧
      isTransient gemEmptyStreamMsg = false := by
  intro cfg cb env
  refine ⟨?_, ?_, ?_, by decide, by decide⟩
  · intro hv herr hbuf
    have hdisp : (dispatchSingle cfg cb env).2 = .error emptyStreamMsg := by
      unfold dispatchSingle
      rw [hv]
      dsimp only
      rw [herr]
      exact respStream_emptyBuffer cfg cb env.respEvents hbuf
    have hE := analyzeExam_errCase cfg cb env emptyStreamMsg hdisp
    exact ⟨by rw [hE]; rfl, by rw [hE]; rfl⟩
  · intro hv herr hbuf
    have hdisp : (dispatchSingle cfg cb env).2 = .error emptyStreamMsg := by
      unfold dispatchSingle
      rw [hv]
      dsimp only
      rw [herr]
      exact chatStream_emptyBuffer cfg cb env.chatChunks hbuf
    have hE := analyzeExam_errCase cfg cb env emptyStreamMsg hdisp
    exact ⟨by rw [hE]; rfl, by rw [hE]; rfl⟩
  · intro hv herr hbuf
    have hdisp : (dispatchSingle cfg cb env).2 = .error gemEmptyStreamMsg := by
      unfold dispatchSingle
      rw [hv]
      dsimp only
      rw [herr]
      exact gemCore_emptyBuffer cfg cb env.gemChunks hbuf
    have hE := analyzeExam_errCase cfg cb env gemEmptyStreamMsg hdisp
    exact ⟨by rw [hE]; rfl, by rw [hE]; rfl⟩

/-- Witness for C9 at a concrete empty Gemini stream. -/
theorem claim_C9_witness :
    selectVariant cfgGeminiStreaming true = .geminiStreaming ∧
    envGemEmptyStream.gemStreamErr = none ∧
    gemAnswerBuffer true envGemEmptyStream.gemChunks = [] ∧
    (analyzeExamScreenshot cfgGeminiStreaming true envGemEmptyStream).2.success = false ∧
    (analyzeExamScreenshot cfgGeminiStreaming true envGemEmptyStream).2.error = some gemEmptyStreamMsg :=
  ⟨rfl, rfl, rfl,
   ((claim_C9 cfgGeminiStreaming true envGemEmptyStream).2.2.1 rfl rfl rfl).1,
   ((claim_C9 cfgGeminiStreaming true envGemEmptyStream).2.2.1 rfl rfl rfl).2⟩
